import Mathlib

/-!
Verification of the AIGENBOOK client-side components (Chatbot, ContextProvider,
PersonalizeModal, SelectText, Root) against their natural-language specification.

The JavaScript source is shallowly embedded: browser local storage becomes an
association list from string keys to parsed JSON values, each React event
handler or effect becomes a pure state-transforming function, and a fetch
becomes a record describing the issued request together with an optional
parsed response standing for the network outcome.
-/

/-- A retrieval source attached to a bot message; only the `title` field is
read by the UI (`SourceLink`). -/
structure Source where
  title : String
deriving DecidableEq, Repr

/-- A chat message as built by the Chatbot component: `type` is the literal
string tag used in the code (`user` or `bot`); `sources` is `none` when the JS
object carries no `sources` property. -/
structure Message where
  id : String
  type : String
  text : String
  sources : Option (List Source)
deriving DecidableEq, Repr

/-- The preferences object of `PersonalizeModal`. -/
structure Prefs where
  name : String
  language : String
  fontSize : String
  theme : String
  goals : List String
deriving DecidableEq, Repr

/-- A parsed JSON value as stored in browser local storage. Local storage
holds strings; the components always store `JSON.stringify` of one of these
shapes and parse it back, and `JSON.stringify`/`JSON.parse` round-trips such
values losslessly, so we store the structured value directly. -/
inductive Val where
  | str (s : String)
  | msgs (l : List Message)
  | prefs (p : Prefs)
deriving DecidableEq, Repr

/-- Browser local storage: key/value pairs, first binding wins. -/
abbrev Storage := List (String × Val)

/-- `localStorage.getItem`. -/
def getVal (k : String) : Storage → Option Val
  | [] => none
  | e :: st => if e.1 == k then some e.2 else getVal k st

/-- `localStorage.removeItem`. -/
def removeVal (k : String) : Storage → Storage
  | [] => []
  | e :: st => if e.1 == k then removeVal k st else e :: removeVal k st

/-- `localStorage.setItem`. -/
def setVal (k : String) (v : Val) (st : Storage) : Storage :=
  (k, v) :: removeVal k st

theorem getVal_removeVal_self (k : String) (st : Storage) :
    getVal k (removeVal k st) = none := by
  induction st with
  | nil => rfl
  | cons e st ih =>
    by_cases h : e.1 = k
    · simp [removeVal, h, ih]
    · simp [removeVal, getVal, h, ih]

theorem getVal_removeVal_ne (k k' : String) (st : Storage) (h : k ≠ k') :
    getVal k (removeVal k' st) = getVal k st := by
  have hkk : ¬(k' = k) := fun hk => h hk.symm
  induction st with
  | nil => rfl
  | cons e st ih =>
    by_cases he : e.1 = k'
    · simp [removeVal, getVal, he, hkk, ih]
    · by_cases hk : e.1 = k
      · simp [removeVal, getVal, he, hk, h]
      · simp [removeVal, getVal, he, hk, ih]

theorem getVal_setVal_self (k : String) (v : Val) (st : Storage) :
    getVal k (setVal k v st) = some v := by
  simp [setVal, getVal]

theorem getVal_setVal_ne (k k' : String) (v : Val) (st : Storage) (h : k ≠ k') :
    getVal k (setVal k' v st) = getVal k st := by
  have : (k' == k) = false := by simp; exact fun hk => h hk.symm
  simp [setVal, getVal, this, getVal_removeVal_ne k k' st h]

/-! ### JavaScript string helpers used by the components -/

/-- Code points treated as whitespace by JavaScript `String.prototype.trim`
(WhiteSpace and LineTerminator productions). -/
def jsWhitespaceCodes : List Nat :=
  [9, 10, 11, 12, 13, 32, 160, 0x1680,
   0x2000, 0x2001, 0x2002, 0x2003, 0x2004, 0x2005, 0x2006, 0x2007,
   0x2008, 0x2009, 0x200A, 0x2028, 0x2029, 0x202F, 0x205F, 0x3000, 0xFEFF]

def isJsWhitespace (c : Char) : Bool :=
  jsWhitespaceCodes.contains c.toNat

/-- JavaScript `String.prototype.trim`. -/
def jsTrim (s : String) : String :=
  String.mk (((s.data.dropWhile isJsWhitespace).reverse.dropWhile isJsWhitespace).reverse)

/-- JavaScript `String.prototype.length` counts UTF-16 code units: astral
code points count twice. -/
def utf16Len (s : String) : Nat :=
  s.data.foldl (fun n c => n + (if c.toNat ≥ 0x10000 then 2 else 1)) 0

/-! ### Local-storage keys and identifiers (from the source) -/

/-- `const STORAGE_KEY = 'aigenbook_chat_history'` in the Chatbot module. -/
def STORAGE_KEY : String := "aigenbook_chat_history"

def userIdKey : String := "user_id"

def prefsKey : String := "user_preferences"

def pendingQuestionKey : String := "pending_question"

/-- The identifier template `` `user_${Date.now()}_${Math.random()...}` ``;
`t` stands for the `Date.now()` part and `r` for the random part. -/
def genUserId (t r : String) : String := "user_" ++ t ++ "_" ++ r

/-- `getUserId`: return the stored `user_id` if present (and truthy, i.e.
non-empty); otherwise generate one, store it, and return it. A stored value
of a non-string shape never occurs but is treated like an absent key, since
`getItem` would then not yield a usable id either. -/
def getUserId (t r : String) (st : Storage) : String × Storage :=
  match getVal userIdKey st with
  | some (Val.str uid) =>
    if uid = "" then (genUserId t r, setVal userIdKey (Val.str (genUserId t r)) st)
    else (uid, st)
  | _ => (genUserId t r, setVal userIdKey (Val.str (genUserId t r)) st)

theorem genUserId_ne_empty (t r : String) : genUserId t r ≠ "" := by
  intro h
  have hlen := congrArg String.length h
  rw [genUserId, String.length_append, String.length_append,
    String.length_append] at hlen
  have h5 : String.length ("user_") = 5 := by decide
  have h1 : String.length ("_") = 1 := by decide
  have h0 : String.length ("") = 0 := by decide
  omega

/-! ### PersonalizeModal and Root (preferences) -/

/-- The `sizes` table of `getFontSize` in PersonalizeModal (`sizes[size] ||
'16px'`); Root's preferences effect inlines the identical table. -/
def getFontSize (size : String) : String :=
  if size = "small" then "14px"
  else if size = "medium" then "16px"
  else if size = "large" then "18px"
  else if size = "xlarge" then "20px"
  else "16px"

/-- `PersonalizeModal.handleSave`: persists the preferences and applies the
document-level side effects; returns (new storage, `lang` attribute value,
`--ifm-font-size-base` value). -/
def handleSave (p : Prefs) (st : Storage) : Storage × String × String :=
  (setVal prefsKey (Val.prefs p) st,
   (if p.language = "ur" then "ur" else "en"),
   getFontSize p.fontSize)

/-- The mount-time load effect of PersonalizeModal: if a stored value exists
it replaces the current preferences state, otherwise the state is kept. -/
def loadPrefsModal (st : Storage) (cur : Prefs) : Prefs :=
  match getVal prefsKey st with
  | some (Val.prefs p) => p
  | _ => cur

/-- Root's preferences effect: reads `user_preferences` and computes the
applied document `lang` attribute (set only for `ur`) and font-size property
(set only for a truthy `fontSize`). -/
def rootApplyPrefs (st : Storage) : Option String × Option String :=
  match getVal prefsKey st with
  | some (Val.prefs p) =>
    ((if p.language = "ur" then some ("ur") else none),
     (if p.fontSize ≠ "" then some (getFontSize p.fontSize) else none))
  | _ => (none, none)

/-! ### Chat history persistence -/

/-- JavaScript `array.slice(-n)`: the last `n` elements (all of them when the
array is shorter). -/
def sliceLast (n : Nat) (l : List Message) : List Message :=
  l.drop (l.length - n)

/-- The Chatbot mount-time load effect: parse the stored history, keep only
the last 50 messages, and replace the current message state only when the
result is non-empty. A stored value that does not parse to a message array
leaves the state unchanged (the `try`/`catch` swallows the failure). -/
def loadHistoryMessages (st : Storage) (cur : List Message) : List Message :=
  match getVal STORAGE_KEY st with
  | some (Val.msgs parsed) =>
    let recentMessages := sliceLast 50 parsed
    if recentMessages.length > 0 then recentMessages else cur
  | _ => cur

/-- The Chatbot save effect: persists the entire in-memory message list under
`STORAGE_KEY` (no truncation happens here). -/
def saveHistory (msgs : List Message) (st : Storage) : Storage :=
  setVal STORAGE_KEY (Val.msgs msgs) st

/-! ### Chatbot component state and handlers -/

/-- The initial (and clear-history) welcome message of the Chatbot. -/
def welcomeMessage : Message :=
  { id := "welcome", type := "bot",
    text := "Hi! I\x27m your AI learning assistant. Select any text from the textbook and ask me questions, or type below.",
    sources := none }

/-- The fixed in-chat apology appended when a chat request fails. -/
def apologyText : String :=
  "I apologize, but I encountered an error. Please try again later."

structure ChatState where
  isOpen : Bool
  messages : List Message
  input : String
  isLoading : Bool
  selectedText : Option String
  storage : Storage
deriving DecidableEq, Repr

/-- The Chatbot component's initial state over a given local storage. -/
def chatInit (st : Storage) : ChatState :=
  { isOpen := false, messages := [welcomeMessage], input := "",
    isLoading := false, selectedText := none, storage := st }

/-- The Chatbot's `selectText` event handler: on a truthy detail, record the
selected text, open the panel, and move a pending question (if any) from
local storage into the input field. -/
def handleSelection (detail : String) (s : ChatState) : ChatState :=
  if detail = "" then s
  else
    let s1 : ChatState := { s with selectedText := some detail, isOpen := true }
    match getVal pendingQuestionKey s1.storage with
    | some (Val.str p) =>
      if p = "" then s1
      else { s1 with input := p,
                     storage := removeVal pendingQuestionKey s1.storage }
    | _ => s1

/-- A JSON value in a request body (the bodies only hold strings and null). -/
inductive Jval where
  | str (s : String)
  | jnull
deriving DecidableEq, Repr

/-- The HTTP request a fetch call issues. -/
structure ChatRequest where
  url : String
  method : String
  body : List (String × Jval)
deriving DecidableEq, Repr

def lookupField (k : String) : List (String × Jval) → Option Jval
  | [] => none
  | e :: b => if e.1 == k then some e.2 else lookupField k b

/-- The parsed JSON of an OK `/api/chat` response; `sources` is `none` when
the response has no `sources` field (the code then defaults to `[]`). -/
structure ChatResponse where
  answer : String
  sources : Option (List Source)
deriving DecidableEq, Repr

def chatApiPath : String := "/api/chat"

def questionField : String := "question"

def selectedTextField : String := "selected_text"

/-- The result of running `Chatbot.handleSend`: the new component state and
the request that was issued (none when the guard returned early). -/
structure SendResult where
  state : ChatState
  request : Option ChatRequest
deriving DecidableEq, Repr

/-- `Chatbot.handleSend`: guard on empty input or a request in flight; append
the user message; POST the question; on an OK response append the bot answer
(sources defaulting to `[]`), on a failed fetch or non-OK response append the
fixed apology; finally clear the loading flag and the selected text. `t`, `r`
feed `getUserId`; `now` is `Date.now()`; `outcome` is `none` when the fetch
rejects or the response is not OK. -/
def handleSend (s : ChatState) (endpoint t r : String) (now : Nat)
    (outcome : Option ChatResponse) : SendResult :=
  if jsTrim s.input = "" ∨ s.isLoading = true then ⟨s, none⟩
  else
    let userMessage : Message :=
      { id := toString now, type := "user", text := jsTrim s.input, sources := none }
    let uid := (getUserId t r s.storage).1
    let st1 := (getUserId t r s.storage).2
    let selField : Jval :=
      match s.selectedText with
      | some x => Jval.str x
      | none => Jval.jnull
    let req : ChatRequest :=
      { url := endpoint ++ chatApiPath, method := "POST",
        body := [(questionField, Jval.str userMessage.text),
                 (userIdKey, Jval.str uid),
                 (selectedTextField, selField)] }
    match outcome with
    | some data =>
      let botMessage : Message :=
        { id := toString (now + 1), type := "bot", text := data.answer,
          sources := some (data.sources.getD []) }
      ⟨{ s with messages := s.messages ++ [userMessage, botMessage],
                input := "", isLoading := false, selectedText := none,
                storage := st1 }, some req⟩
    | none =>
      let errorMessage : Message :=
        { id := toString (now + 1), type := "bot", text := apologyText,
          sources := none }
      ⟨{ s with messages := s.messages ++ [userMessage, errorMessage],
                input := "", isLoading := false, selectedText := none,
                storage := st1 }, some req⟩

/-- `Chatbot.handleClearHistory` (confirmed branch): reset the messages to the
single welcome message and remove the stored history. -/
def clearState (s : ChatState) : ChatState :=
  { s with messages := [welcomeMessage],
           storage := removeVal STORAGE_KEY s.storage }

/-! ### ContextProvider.sendMessage -/

/-- The user-message text built by `ContextProvider.sendMessage`. -/
def sendMessageUserText (question : String) (sel : Option String) : String :=
  match sel with
  | some x => x ++ "\n\nQuestion: " ++ question
  | none => question

/-- `ContextProvider.sendMessage`: append the user message, POST it with the
stored (or anonymous) user id and no `selected_text` field, then append
either the answer or the fixed apology. Returns the new message list and the
issued request. -/
def sendMessage (msgs : List Message) (st : Storage) (endpoint : String)
    (question : String) (sel : Option String) (now : Nat)
    (outcome : Option ChatResponse) : List Message × ChatRequest :=
  let userMessage : Message :=
    { id := toString now, type := "user",
      text := sendMessageUserText question sel, sources := none }
  let uid :=
    match getVal userIdKey st with
    | some (Val.str u) => if u = "" then "anonymous" else u
    | _ => "anonymous"
  let req : ChatRequest :=
    { url := endpoint ++ chatApiPath, method := "POST",
      body := [(questionField, Jval.str userMessage.text),
               (userIdKey, Jval.str uid)] }
  match outcome with
  | some data =>
    (msgs ++ [userMessage,
              { id := toString (now + 1), type := "bot", text := data.answer,
                sources := some (data.sources.getD []) }], req)
  | none =>
    (msgs ++ [userMessage,
              { id := toString (now + 1), type := "bot", text := apologyText,
                sources := none }], req)

/-! ### SelectText component -/

/-- The bounding rectangle of the selection range (coordinates as exact
rationals standing in for the browser's numbers). -/
structure Rect where
  top : Rat
  left : Rat
  width : Rat
deriving DecidableEq, Repr

structure SelectState where
  selection : Option String
  popupTop : Rat
  popupLeft : Rat
  showPopup : Bool
  chatbotOpen : Bool
deriving DecidableEq, Repr

/-- `SelectText.handleTextSelection`: `winSel` is
`window.getSelection()?.toString()` (`none` when there is no selection
object), `rect` the bounding rectangle of the first range. A falsy or
too-short trimmed text hides the popup and clears the stored selection; a
trimmed text of 3+ UTF-16 units with a rectangle stores the selection and
shows the popup at the computed position; without a rectangle nothing
changes. -/
def handleTextSelection (winSel : Option String) (rect : Option Rect)
    (scrollX scrollY : Rat) (s : SelectState) : SelectState :=
  match winSel with
  | none => { s with selection := none, showPopup := false }
  | some raw =>
    let text := jsTrim raw
    if text = "" ∨ utf16Len text < 3 then
      { s with selection := none, showPopup := false }
    else
      match rect with
      | some r =>
        { s with popupTop := r.top + scrollY - 45,
                 popupLeft := r.left + scrollX + r.width / 2,
                 selection := some text, showPopup := true }
      | none => s

/-- The pending-question text `SelectText.handleAskAI` stores:
`` `Can you explain this concept: "${selection}"` ``. -/
def askAIText (sel : String) : String :=
  "Can you explain this concept: \x22" ++ sel ++ "\x22"

/-- The effects of clicking the Ask AI button: hide the popup, mark the
chatbot open, store the pending question, and dispatch a `selectText` event
whose detail is the stored selection. -/
structure AskAIResult where
  storage : Storage
  eventDetail : String
  showPopup : Bool
  chatbotOpen : Bool
deriving DecidableEq, Repr

def handleAskAI (sel : String) (st : Storage) : AskAIResult :=
  { storage := setVal pendingQuestionKey (Val.str (askAIText sel)) st,
    eventDetail := sel, showPopup := false, chatbotOpen := true }

theorem askAIText_ne_empty (sel : String) : askAIText sel ≠ "" := by
  intro h
  have hlen := congrArg String.length h
  rw [askAIText, String.length_append, String.length_append] at hlen
  have hp : 0 < String.length ("Can you explain this concept: \x22") := by decide
  have h0 : String.length ("") = 0 := by decide
  omega

/-! ### Reachable Chatbot states (for the non-empty-messages invariant) -/

/-- One user-visible operation of the Chatbot component. Every operation of
the component that can touch the message list or the storage is a step. -/
inductive ChatStep : ChatState → ChatState → Prop where
  | loadHist (s : ChatState) :
      ChatStep s { s with messages := loadHistoryMessages s.storage s.messages }
  | saveHist (s : ChatState) :
      ChatStep s { s with storage := saveHistory s.messages s.storage }
  | select (detail : String) (s : ChatState) :
      ChatStep s (handleSelection detail s)
  | send (endpoint t r : String) (now : Nat) (outcome : Option ChatResponse)
      (s : ChatState) :
      ChatStep s (handleSend s endpoint t r now outcome).state
  | clear (s : ChatState) : ChatStep s (clearState s)
  | toggleOpen (s : ChatState) : ChatStep s { s with isOpen := !s.isOpen }
  | typeInput (v : String) (s : ChatState) : ChatStep s { s with input := v }

/-- States the Chatbot can be in: the initial state over any storage, closed
under the component's operations. -/
inductive ChatReachable : ChatState → Prop where
  | init (st : Storage) : ChatReachable (chatInit st)
  | step {s s' : ChatState} : ChatReachable s → ChatStep s s' → ChatReachable s'

/-! ### Identifier resolution for the Chatbot render (dependency arrays) -/

/-- The identifiers in scope inside the `Chatbot` component body at the point
where the `useCallback` for `handleSend` is evaluated: the module imports and
module-level bindings, the component's own bindings declared above that
point, and the browser globals the module uses. -/
def chatbotRenderScope : List String :=
  ["React", "useState", "useEffect", "useRef", "useCallback", "clsx",
   "MDXComponents", "STORAGE_KEY", "getUserId", "CopyButton", "SourceLink",
   "LoadingSpinner", "Chatbot", "isOpen", "setIsOpen", "messages",
   "setMessages", "input", "setInput", "isLoading", "setIsLoading",
   "selectedText", "setSelectedText", "messagesEndRef", "scrollToBottom",
   "window", "document", "localStorage", "fetch", "Date", "Math", "JSON",
   "console", "Error", "navigator", "setTimeout", "CustomEvent"]

/-- The dependency array of the `useCallback` wrapping `handleSend`:
`[input, isLoading, selectedText, selection]`. -/
def handleSendDeps : List String :=
  ["input", "isLoading", "selectedText", "selection"]

/-- Evaluating a list of identifiers in a scope, as the JS engine does when
the dependency-array expression is evaluated during render: the first
identifier that resolves nowhere raises a `ReferenceError`. -/
def resolveIdents (scope deps : List String) : Except String Unit :=
  match deps.find? (fun d => !(scope.contains d)) with
  | some d => Except.error ("ReferenceError: " ++ d ++ " is not defined")
  | none => Except.ok ()

/-! ### SourceLink.getSourceUrl -/

/-- `p.beginsWith l`: `p` is an initial segment of `l` (pattern first). -/
def beginsWith : List Char → List Char → Bool
  | [], _ => true
  | _ :: _, [] => false
  | q :: ps, c :: cs => q == c && beginsWith ps cs

/-- The literal `chapter-` characters of the regex `/chapter-(\d+)/i`. -/
def chapterPat : List Char := ['c', 'h', 'a', 'p', 't', 'e', 'r', '-']

/-- Case-insensitive literal match of a lowercase pattern at the head of a
string, returning the remainder on success (regex-engine style). -/
def matchCI : List Char → List Char → Option (List Char)
  | [], rest => some rest
  | _ :: _, [] => none
  | q :: ps, c :: cs => if c.toLower = q then matchCI ps cs else none

/-- The `\d+` part: the maximal leading run of ASCII digits. -/
def takeDigits : List Char → List Char
  | [] => []
  | c :: cs => if c.isDigit then c :: takeDigits cs else []

/-- `title.match(/chapter-(\d+)/i)`: scan left to right for the first
position where `chapter-` (case-insensitively) followed by at least one
digit matches, and return the captured digit run. -/
def findChapterDigits : List Char → Option (List Char)
  | [] => none
  | c :: cs =>
    match matchCI chapterPat (c :: cs) with
    | some rest =>
      match takeDigits rest with
      | [] => findChapterDigits cs
      | ds => some ds
    | none => findChapterDigits cs

/-- The `chapterPaths` lookup table of `getSourceUrl` (`chapterPaths[num]`,
`undefined`/falsy when the captured digits are not a key). -/
def chapterPathFor (ds : List Char) : Option String :=
  if ds = ['0', '1'] then some "/docs/chapter-01-physical-ai"
  else if ds = ['0', '2'] then some "/docs/chapter-02-humanoid-robotics"
  else if ds = ['0', '3'] then some "/docs/chapter-03-ros2-fundamentals"
  else if ds = ['0', '4'] then some "/docs/chapter-04-digital-twin"
  else if ds = ['0', '5'] then some "/docs/chapter-05-vla-systems"
  else if ds = ['0', '6'] then some "/docs/chapter-06-capstone"
  else none

/-- JavaScript `string.replace(pat, '')` with a string pattern: remove the
first occurrence of `pat`, leave the string unchanged when `pat` does not
occur. -/
def replaceFirst (pat : List Char) : List Char → List Char
  | [] => []
  | c :: cs =>
    if beginsWith pat (c :: cs) then (c :: cs).drop pat.length
    else c :: replaceFirst pat cs

def mdxPat : List Char := ['.', 'm', 'd', 'x']

/-- `SourceLink.getSourceUrl`, translated from the source. -/
def getSourceUrl (title : String) : String :=
  let fallback := "/docs/" ++ String.mk (replaceFirst mdxPat title.data)
  match findChapterDigits title.data with
  | some ds =>
    match chapterPathFor ds with
    | some p => p
    | none => fallback
  | none => fallback

/-! ### Spec-side formulations for the `getSourceUrl` claim -/

/-- `pat` occurs somewhere in `l` as a contiguous run. -/
def hasSub (pat : List Char) : List Char → Bool
  | [] => beginsWith pat []
  | c :: cs => beginsWith pat (c :: cs) || hasSub pat cs

/-- `pat` is a final segment of `l`. -/
def endsWithList (pat l : List Char) : Bool :=
  beginsWith pat.reverse l.reverse

/-- Removing a `.mdx` SUFFIX, as the claim literally words the fallback. -/
def stripMdxSuffix (t : List Char) : List Char :=
  if endsWithList mdxPat t then t.take (t.length - 4) else t

/-- The claim as literally stated: a title containing `chapter-` followed by
digits 01 through 06 maps to the fixed path, anything else to `/docs/` plus
the title with any `.mdx` suffix removed. -/
def specClaimUrl (title : String) : String :=
  let t := title.data
  if hasSub (chapterPat ++ ['0', '1']) t then "/docs/chapter-01-physical-ai"
  else if hasSub (chapterPat ++ ['0', '2']) t then "/docs/chapter-02-humanoid-robotics"
  else if hasSub (chapterPat ++ ['0', '3']) t then "/docs/chapter-03-ros2-fundamentals"
  else if hasSub (chapterPat ++ ['0', '4']) t then "/docs/chapter-04-digital-twin"
  else if hasSub (chapterPat ++ ['0', '5']) t then "/docs/chapter-05-vla-systems"
  else if hasSub (chapterPat ++ ['0', '6']) t then "/docs/chapter-06-capstone"
  else "/docs/" ++ String.mk (stripMdxSuffix t)

/-- The match condition at position `i`: `chapter-` matches there
case-insensitively and a digit follows. -/
def chapterAt (t : List Char) (i : Nat) : Bool :=
  beginsWith chapterPat ((t.drop i).map Char.toLower) &&
    ((t.drop (i + 8)).headD 'x').isDigit

/-- Index-based formulation of the regex search: the least matching position,
with the maximal digit run captured there. -/
def specFindDigits (t : List Char) : Option (List Char) :=
  ((List.range t.length).find? (chapterAt t)).map
    (fun i => (t.drop (i + 8)).takeWhile Char.isDigit)

/-- Index-based formulation of first-occurrence removal: split at the least
position where the pattern occurs. -/
def removeFirstSub (pat l : List Char) : List Char :=
  match (List.range (l.length + 1)).find? (fun i => beginsWith pat (l.drop i)) with
  | some i => l.take i ++ l.drop (i + pat.length)
  | none => l

/-- The amended claim's href function, phrased from the amended words: find
the first case-insensitive occurrence of `chapter-` followed by a digit, read
the maximal digit run there, and fall back to `/docs/` plus the title with
the first occurrence of `.mdx` removed. -/
def specAmendedUrl (title : String) : String :=
  let t := title.data
  let fallback := "/docs/" ++ String.mk (removeFirstSub mdxPat t)
  match specFindDigits t with
  | some ds =>
    match chapterPathFor ds with
    | some p => p
    | none => fallback
  | none => fallback

/-! ### Equivalence of the scanning and index-based formulations -/

theorem takeDigits_eq (l : List Char) : takeDigits l = l.takeWhile Char.isDigit := by
  induction l with
  | nil => rfl
  | cons c cs ih =>
    by_cases h : c.isDigit = true <;> simp [takeDigits, List.takeWhile_cons, h, ih]

theorem takeDigits_eq_nil_iff (l : List Char) :
    takeDigits l = [] ↔ (l.headD 'x').isDigit = false := by
  cases l with
  | nil => simp [takeDigits]
  | cons c cs =>
    by_cases h : c.isDigit = true <;> simp [takeDigits, h]

theorem matchCI_eq (p : List Char) : ∀ l : List Char,
    matchCI p l =
      if beginsWith p (l.map Char.toLower) = true then some (l.drop p.length)
      else none := by
  induction p with
  | nil => intro l; simp [matchCI, beginsWith]
  | cons q ps ih =>
    intro l
    cases l with
    | nil => simp [matchCI, beginsWith]
    | cons c cs =>
      by_cases h : c.toLower = q
      · have hq : (q == c.toLower) = true := by simp [h]
        simp [matchCI, h, ih, beginsWith, hq, List.drop_succ_cons]
      · have hq : (q == c.toLower) = false := by
          simp only [beq_eq_false_iff_ne, ne_eq]
          exact fun hh => h hh.symm
        simp [matchCI, h, beginsWith, hq]

theorem range_find_shift (p : Nat → Bool) (n : Nat) :
    (List.range (n + 1)).find? p =
      if p 0 = true then some 0
      else ((List.range n).find? (fun i => p (i + 1))).map (· + 1) := by
  rw [List.range_succ_eq_map, List.find?_cons]
  by_cases h : p 0 = true
  · simp only [h, if_pos]
  · simp only [h, Bool.false_eq_true, if_false]
    rw [List.find?_map]
    rfl

theorem chapterAt_succ (c : Char) (cs : List Char) (i : Nat) :
    chapterAt (c :: cs) (i + 1) = chapterAt cs i := by
  have h9 : i + 1 + 8 = (i + 8) + 1 := by omega
  rw [chapterAt, chapterAt, h9, List.drop_succ_cons, List.drop_succ_cons]

theorem shifted_chapter_eq (c : Char) (cs : List Char) :
    (((List.range cs.length).find? (chapterAt cs)).map (· + 1)).map
        (fun i => ((c :: cs).drop (i + 8)).takeWhile Char.isDigit) =
      specFindDigits cs := by
  cases hf : (List.range cs.length).find? (chapterAt cs) with
  | none => simp [specFindDigits, hf]
  | some i =>
    have h9 : i + 1 + 8 = (i + 8) + 1 := by omega
    simp only [specFindDigits, hf, Option.map_some']
    rw [h9, List.drop_succ_cons]

theorem findChapterDigits_eq (t : List Char) :
    findChapterDigits t = specFindDigits t := by
  induction t with
  | nil => rfl
  | cons c cs ih =>
    have hcp : chapterPat.length = 8 := rfl
    rw [specFindDigits, List.length_cons, range_find_shift]
    simp only [chapterAt_succ]
    by_cases hb : beginsWith chapterPat ((c :: cs).map Char.toLower) = true
    · have hM : matchCI chapterPat (c :: cs) = some ((c :: cs).drop 8) := by
        rw [matchCI_eq, if_pos hb, hcp]
      by_cases hd : (((c :: cs).drop 8).headD 'x').isDigit = true
      · have hat : chapterAt (c :: cs) 0 = true := by
          rw [chapterAt, List.drop_zero, Nat.zero_add, hb, hd]
          rfl
        rw [if_pos hat]
        simp only [findChapterDigits, hM, Option.map_some']
        cases htd : takeDigits ((c :: cs).drop 8) with
        | nil =>
          rw [takeDigits_eq_nil_iff] at htd
          rw [htd] at hd
          exact absurd hd (by decide)
        | cons d ds =>
          rw [Nat.zero_add, ← takeDigits_eq, htd]
      · have hdf : (((c :: cs).drop 8).headD 'x').isDigit = false := by
          simp only [Bool.not_eq_true] at hd
          exact hd
        have hat : chapterAt (c :: cs) 0 = false := by
          rw [chapterAt, List.drop_zero, Nat.zero_add, hb, hdf]
          rfl
        rw [hat]
        simp only [Bool.false_eq_true, if_false]
        have htd : takeDigits ((c :: cs).drop 8) = [] := by
          rw [takeDigits_eq_nil_iff, hdf]
        simp only [findChapterDigits, hM, htd]
        rw [ih, shifted_chapter_eq]
    · have hbf : beginsWith chapterPat ((c :: cs).map Char.toLower) = false := by
        simp only [Bool.not_eq_true] at hb
        exact hb
      have hM : matchCI chapterPat (c :: cs) = none := by
        rw [matchCI_eq, if_neg hb]
      have hat : chapterAt (c :: cs) 0 = false := by
        rw [chapterAt, List.drop_zero, hbf, Bool.false_and]
      rw [hat]
      simp only [Bool.false_eq_true, if_false]
      simp only [findChapterDigits, hM]
      rw [ih, shifted_chapter_eq]

theorem replaceFirst_eq (pat : List Char) : ∀ l : List Char,
    replaceFirst pat l = removeFirstSub pat l := by
  intro l
  induction l with
  | nil =>
    by_cases h : beginsWith pat [] = true <;>
      simp [replaceFirst, removeFirstSub, List.range_succ_eq_map, List.find?_cons, h]
  | cons c cs ih =>
    rw [removeFirstSub, List.length_cons, range_find_shift]
    by_cases h : beginsWith pat (c :: cs) = true
    · have h0 : beginsWith pat ((c :: cs).drop 0) = true := by
        rw [List.drop_zero]
        exact h
      rw [if_pos h0]
      simp [replaceFirst, h, Nat.zero_add]
    · have h0 : ¬(beginsWith pat ((c :: cs).drop 0) = true) := by
        rw [List.drop_zero]
        exact h
      rw [if_neg h0]
      simp only [List.drop_succ_cons]
      cases hf : (List.range (cs.length + 1)).find?
          (fun i => beginsWith pat (cs.drop i)) with
      | none =>
        simp only [Option.map_none']
        simp only [replaceFirst, if_neg h, ih]
        rw [removeFirstSub, hf]
      | some i =>
        simp only [Option.map_some']
        simp only [replaceFirst, if_neg h, ih]
        rw [removeFirstSub, hf]
        have h9 : i + 1 + pat.length = (i + pat.length) + 1 := by omega
        rw [List.take_succ_cons, h9, List.drop_succ_cons]
        rfl

/-! ### Helper lemmas about the Chatbot operations -/

theorem loadHistoryMessages_ne_nil (st : Storage) (cur : List Message)
    (h : cur ≠ []) : loadHistoryMessages st cur ≠ [] := by
  cases hv : getVal STORAGE_KEY st with
  | none => simpa [loadHistoryMessages, hv] using h
  | some v =>
    cases v with
    | str x => simpa [loadHistoryMessages, hv] using h
    | prefs p => simpa [loadHistoryMessages, hv] using h
    | msgs parsed =>
      simp only [loadHistoryMessages, hv]
      by_cases hp : (sliceLast 50 parsed).length > 0
      · rw [if_pos hp]
        exact List.length_pos.mp hp
      · rw [if_neg hp]
        exact h

theorem handleSelection_messages (d : String) (s : ChatState) :
    (handleSelection d s).messages = s.messages := by
  simp only [handleSelection]
  split
  · rfl
  · split <;> first | rfl | (split <;> rfl)

theorem handleSend_append (s : ChatState) (endpoint t r : String) (now : Nat)
    (outcome : Option ChatResponse) :
    ∃ tl, (handleSend s endpoint t r now outcome).state.messages =
      s.messages ++ tl := by
  by_cases hg : jsTrim s.input = "" ∨ s.isLoading = true
  · refine ⟨[], ?_⟩
    simp [handleSend, hg]
  · cases outcome with
    | none =>
      refine ⟨[{ id := toString now, type := "user", text := jsTrim s.input,
                 sources := none },
               { id := toString (now + 1), type := "bot", text := apologyText,
                 sources := none }], ?_⟩
      simp only [handleSend, if_neg hg]
    | some data =>
      refine ⟨[{ id := toString now, type := "user", text := jsTrim s.input,
                 sources := none },
               { id := toString (now + 1), type := "bot", text := data.answer,
                 sources := some (data.sources.getD []) }], ?_⟩
      simp only [handleSend, if_neg hg]

/-! ### Claim C1 -/

def sampleMsg (i : Nat) : Message :=
  { id := toString i, type := "user", text := "m", sources := none }

def fiftyMessages : List Message := (List.range 50).map sampleMsg

def extraMessage : Message :=
  { id := "x", type := "user", text := "one more", sources := none }

/-- C1 (counterexample): appending one message to a 50-entry history and
running the save effect stores all 51 entries — the save step does not cap
the persisted history at 50. -/
theorem C1_counterexample :
    getVal STORAGE_KEY (saveHistory (fiftyMessages ++ [extraMessage]) []) =
        some (Val.msgs (fiftyMessages ++ [extraMessage])) ∧
      fiftyMessages.length = 50 ∧
      ¬((fiftyMessages ++ [extraMessage]).length ≤ 50) := by
  refine ⟨rfl, ?_, ?_⟩
  · simp [fiftyMessages]
  · simp [fiftyMessages]

/-- C1 (amended): the save effect persists the whole in-memory list, so the
stored history can exceed 50 entries; the 50-message cap is enforced by the
mount-time load, which keeps exactly the most recent `min 50` entries of a
non-empty stored history — in particular the loaded history never exceeds 50
messages and is a suffix (the most recent part) of the stored one. -/
theorem C1_amended (st : Storage) (cur parsed : List Message)
    (hst : getVal STORAGE_KEY st = some (Val.msgs parsed))
    (hne : parsed ≠ []) :
    loadHistoryMessages st cur = sliceLast 50 parsed ∧
    (loadHistoryMessages st cur).length ≤ 50 ∧
    parsed.take (parsed.length - 50) ++ loadHistoryMessages st cur = parsed := by
  have hlen : 0 < parsed.length := List.length_pos.mpr hne
  have hslice : (sliceLast 50 parsed).length =
      parsed.length - (parsed.length - 50) := by
    rw [sliceLast, List.length_drop]
  have hpos : (sliceLast 50 parsed).length > 0 := by
    rw [hslice]
    omega
  have hload : loadHistoryMessages st cur = sliceLast 50 parsed := by
    simp only [loadHistoryMessages, hst]
    rw [if_pos hpos]
  refine ⟨hload, ?_, ?_⟩
  · rw [hload, hslice]
    omega
  · rw [hload, sliceLast, List.take_append_drop]

/-- Witness for C1 (amended) at a concrete one-message stored history. -/
theorem C1_amended_witness :
    loadHistoryMessages (saveHistory [extraMessage] []) [welcomeMessage] =
      sliceLast 50 [extraMessage] :=
  (C1_amended (saveHistory [extraMessage] []) [welcomeMessage] [extraMessage]
    rfl (by decide)).1

/-! ### Claim C2 -/

/-- C2: evaluating the dependency array `[input, isLoading, selectedText,
selection]` of the `useCallback` around `handleSend` in the scope of the
Chatbot component body raises `ReferenceError: selection is not defined` —
rendering the chat panel throws, so an exception does escape to the UI
(while the fetch error path itself appends `apologyText`, see `handleSend`
and `sendMessage`). -/
theorem C2_render_throws :
    resolveIdents chatbotRenderScope handleSendDeps =
      Except.error ("ReferenceError: selection is not defined") := by
  rfl

/-! ### Claim C3 -/

/-- C3: both chat-request sites POST to `endpoint ++ /api/chat` with a JSON
body containing the string fields `question` and `user_id` (the Chatbot also
sends `selected_text`, the ContextProvider omits it), and on an OK response
exactly one bot message carrying the response's `answer` and its `sources`
(defaulting to `[]`) is appended after the user message. -/
theorem C3_chat_request (s : ChatState) (endpoint t r : String) (now : Nat)
    (outcome : Option ChatResponse)
    (hin : jsTrim s.input ≠ "") (hload : s.isLoading = false) :
    (∃ req : ChatRequest,
      (handleSend s endpoint t r now outcome).request = some req ∧
      req.url = endpoint ++ chatApiPath ∧
      req.method = "POST" ∧
      lookupField questionField req.body = some (Jval.str (jsTrim s.input)) ∧
      lookupField userIdKey req.body =
        some (Jval.str (getUserId t r s.storage).1) ∧
      (∀ data : ChatResponse, outcome = some data →
        (handleSend s endpoint t r now outcome).state.messages =
          s.messages ++
            [{ id := toString now, type := "user", text := jsTrim s.input,
               sources := none },
             { id := toString (now + 1), type := "bot", text := data.answer,
               sources := some (data.sources.getD []) }])) ∧
    (∀ (msgs : List Message) (st : Storage) (question : String)
        (sel : Option String),
      (sendMessage msgs st endpoint question sel now outcome).2.url =
          endpoint ++ chatApiPath ∧
      (sendMessage msgs st endpoint question sel now outcome).2.method =
          "POST" ∧
      lookupField questionField
          (sendMessage msgs st endpoint question sel now outcome).2.body =
        some (Jval.str (sendMessageUserText question sel)) ∧
      (∃ u : String, lookupField userIdKey
          (sendMessage msgs st endpoint question sel now outcome).2.body =
        some (Jval.str u)) ∧
      lookupField selectedTextField
          (sendMessage msgs st endpoint question sel now outcome).2.body =
        none ∧
      (∀ data : ChatResponse, outcome = some data →
        (sendMessage msgs st endpoint question sel now outcome).1 =
          msgs ++
            [{ id := toString now, type := "user",
               text := sendMessageUserText question sel, sources := none },
             { id := toString (now + 1), type := "bot", text := data.answer,
               sources := some (data.sources.getD []) }])) := by
  have hguard : ¬(jsTrim s.input = "" ∨ s.isLoading = true) := by
    rw [hload]
    simp [hin]
  have hreq : ∀ o, (handleSend s endpoint t r now o).request =
      some { url := endpoint ++ chatApiPath, method := "POST",
             body := [(questionField, Jval.str (jsTrim s.input)),
                      (userIdKey, Jval.str (getUserId t r s.storage).1),
                      (selectedTextField,
                        match s.selectedText with
                        | some x => Jval.str x
                        | none => Jval.jnull)] } := by
    intro o
    cases o <;> simp only [handleSend, if_neg hguard]
  constructor
  · cases outcome with
    | none =>
      refine ⟨_, hreq none, rfl, rfl, ?_, ?_, ?_⟩
      · rfl
      · rfl
      · intro data h
        exact absurd h (by simp)
    | some data =>
      refine ⟨_, hreq (some data), rfl, rfl, ?_, ?_, ?_⟩
      · rfl
      · rfl
      · intro data' h
        cases h
        simp only [handleSend, if_neg hguard]
  · intro msgs st question sel
    cases outcome with
    | none =>
      refine ⟨rfl, rfl, rfl, ⟨_, rfl⟩, rfl, ?_⟩
      intro data h
      exact absurd h (by simp)
    | some data =>
      refine ⟨rfl, rfl, rfl, ⟨_, rfl⟩, rfl, ?_⟩
      intro data' h
      cases h
      rfl

def chatStateW : ChatState :=
  { isOpen := true, messages := [welcomeMessage], input := "hi",
    isLoading := false, selectedText := none, storage := [] }

/-- Witness for C3 at a concrete state, endpoint and OK response. -/
theorem C3_witness :
    (handleSend chatStateW ("http://e") ("5") ("r") 7
        (some { answer := "ans", sources := none })).state.messages =
      chatStateW.messages ++
        [{ id := "7", type := "user", text := "hi", sources := none },
         { id := "8", type := "bot", text := "ans", sources := some [] }] := by
  have h := C3_chat_request chatStateW ("http://e") ("5") ("r") 7
    (some { answer := "ans", sources := none }) (by decide) rfl
  obtain ⟨⟨req, hreq, hurl, hmeth, hq, hu, hmsg⟩, hctx⟩ := h
  rw [hmsg { answer := "ans", sources := none } rfl]
  rfl

/-! ### Claim C4 -/

/-- C4: the preferences round-trip — saving any preferences object via
`handleSave` and then running the modal's mount-time load yields the same
object; in particular this holds for `language = ur`, `fontSize = large`. -/
theorem C4_prefs_roundtrip (p : Prefs) (st : Storage) (cur : Prefs) :
    loadPrefsModal (handleSave p st).1 cur = p := by
  simp only [loadPrefsModal, handleSave, getVal_setVal_self]

/-! ### Claim C5 -/

/-- C5: clicking Ask AI stores the pending question
`Can you explain this concept: "s"` and dispatches a `selectText` event with
detail `s`; feeding that event to the Chatbot handler (for non-empty `s`)
opens the panel, copies the pending question into the input field, records
the selected text, and removes the `pending_question` key from storage. -/
theorem C5_ask_ai_handoff (sel : String) (st : Storage) (s : ChatState)
    (hne : sel ≠ "") :
    getVal pendingQuestionKey (handleAskAI sel st).storage =
        some (Val.str (askAIText sel)) ∧
    (handleAskAI sel st).eventDetail = sel ∧
    (handleAskAI sel st).showPopup = false ∧
    (handleAskAI sel st).chatbotOpen = true ∧
    ((handleSelection (handleAskAI sel st).eventDetail
        { s with storage := (handleAskAI sel st).storage }).isOpen = true ∧
      (handleSelection (handleAskAI sel st).eventDetail
        { s with storage := (handleAskAI sel st).storage }).input =
          askAIText sel ∧
      (handleSelection (handleAskAI sel st).eventDetail
        { s with storage := (handleAskAI sel st).storage }).selectedText =
          some sel ∧
      getVal pendingQuestionKey
        (handleSelection (handleAskAI sel st).eventDetail
          { s with storage := (handleAskAI sel st).storage }).storage = none) := by
  have hpq : getVal pendingQuestionKey
      (setVal pendingQuestionKey (Val.str (askAIText sel)) st) =
      some (Val.str (askAIText sel)) := getVal_setVal_self _ _ _
  have hred : handleSelection sel
      ({ s with storage := (setVal pendingQuestionKey
          (Val.str (askAIText sel)) st) } : ChatState) =
      { s with selectedText := some sel, isOpen := true,
               input := askAIText sel,
               storage := (removeVal pendingQuestionKey
                 (setVal pendingQuestionKey (Val.str (askAIText sel)) st)) } := by
    simp only [handleSelection, if_neg hne, hpq,
      if_neg (askAIText_ne_empty sel)]
  refine ⟨hpq, rfl, rfl, rfl, ?_, ?_, ?_, ?_⟩
  · rw [handleAskAI]
    rw [hred]
  · rw [handleAskAI]
    rw [hred]
  · rw [handleAskAI]
    rw [hred]
  · rw [handleAskAI]
    rw [hred]
    exact getVal_removeVal_self _ _

/-- Witness for C5 at the concrete selection `gradient descent`. -/
theorem C5_witness :
    (handleSelection (handleAskAI ("gradient descent") []).eventDetail
        { chatInit [] with
          storage := (handleAskAI ("gradient descent") []).storage }).input =
      askAIText ("gradient descent") :=
  (C5_ask_ai_handoff ("gradient descent") [] (chatInit [])
    (by decide)).2.2.2.2.2.1

/-! ### Claim C6 -/

/-- C6 (counterexample): for the title `a.mdxb` the code removes the first
occurrence of `.mdx` anywhere (yielding `/docs/ab`), while the claim's
fallback — remove a `.mdx` suffix — would yield `/docs/a.mdxb`; the claim as
stated is false for this title. -/
theorem C6_counterexample :
    getSourceUrl ("a.mdxb") = "/docs/ab" ∧
    specClaimUrl ("a.mdxb") = "/docs/a.mdxb" ∧
    getSourceUrl ("a.mdxb") ≠ specClaimUrl ("a.mdxb") := by
  refine ⟨?_, ?_, ?_⟩ <;> decide

/-- C6 (amended): the href is determined by the title as follows — scan the
title case-insensitively for the first occurrence of `chapter-` immediately
followed by a digit; if the maximal digit run there is one of 01 … 06, the
href is the corresponding fixed chapter path; otherwise it is `/docs/`
followed by the title with the FIRST occurrence of the substring `.mdx`
removed. -/
theorem C6_amended_url (title : String) :
    getSourceUrl title = specAmendedUrl title := by
  simp only [getSourceUrl, specAmendedUrl, findChapterDigits_eq,
    replaceFirst_eq]

/-! ### Claim C7 -/

/-- C7: every history operation of the Chatbot reads or writes local storage
only through the fixed key `aigenbook_chat_history` (`STORAGE_KEY`), and
every preferences operation of PersonalizeModal and Root only through the
fixed key `user_preferences` (`prefsKey`): the writes store under exactly
that key and leave every other key untouched, and the reads depend only on
that key's value. -/
theorem C7_fixed_keys :
    (∀ msgs st, getVal STORAGE_KEY (saveHistory msgs st) =
      some (Val.msgs msgs)) ∧
    (∀ msgs st k, k ≠ STORAGE_KEY →
      getVal k (saveHistory msgs st) = getVal k st) ∧
    (∀ st st' cur, getVal STORAGE_KEY st = getVal STORAGE_KEY st' →
      loadHistoryMessages st cur = loadHistoryMessages st' cur) ∧
    (∀ s : ChatState, ∀ k, k ≠ STORAGE_KEY →
      getVal k (clearState s).storage = getVal k s.storage) ∧
    (∀ p st, getVal prefsKey (handleSave p st).1 = some (Val.prefs p)) ∧
    (∀ p st k, k ≠ prefsKey →
      getVal k (handleSave p st).1 = getVal k st) ∧
    (∀ st st' cur, getVal prefsKey st = getVal prefsKey st' →
      loadPrefsModal st cur = loadPrefsModal st' cur) ∧
    (∀ st st', getVal prefsKey st = getVal prefsKey st' →
      rootApplyPrefs st = rootApplyPrefs st') := by
  refine ⟨?_, ?_, ?_, ?_, ?_, ?_, ?_, ?_⟩
  · intro msgs st
    exact getVal_setVal_self _ _ _
  · intro msgs st k hk
    exact getVal_setVal_ne _ _ _ _ hk
  · intro st st' cur h
    rw [loadHistoryMessages, loadHistoryMessages, h]
  · intro s k hk
    simp only [clearState]
    exact getVal_removeVal_ne _ _ _ hk
  · intro p st
    exact getVal_setVal_self _ _ _
  · intro p st k hk
    exact getVal_setVal_ne _ _ _ _ hk
  · intro st st' cur h
    rw [loadPrefsModal, loadPrefsModal, h]
  · intro st st' h
    rw [rootApplyPrefs, rootApplyPrefs, h]

/-- The concrete preferences object named by the spec's round-trip property. -/
def prefsW : Prefs :=
  { name := "", language := "ur", fontSize := "large", theme := "system",
    goals := [] }

/-- Witness for C7: a write under `STORAGE_KEY` leaves the unrelated key `x`
unbound, and a preferences write leaves `x` unbound as well. -/
theorem C7_witness :
    getVal ("x") (saveHistory [welcomeMessage] []) = none ∧
    getVal ("x") (handleSave prefsW []).1 = none := by
  constructor
  · rw [C7_fixed_keys.2.1 [welcomeMessage] [] ("x") (by decide)]
    rfl
  · rw [C7_fixed_keys.2.2.2.2.2.1 prefsW [] ("x") (by decide)]
    rfl

theorem chatStep_preserves {s s' : ChatState} (h : ChatStep s s')
    (hne : s.messages ≠ []) : s'.messages ≠ [] := by
  cases h with
  | loadHist => exact loadHistoryMessages_ne_nil _ _ hne
  | saveHist => exact hne
  | select detail =>
    rw [handleSelection_messages]
    exact hne
  | send endpoint t r now outcome =>
    obtain ⟨tl, htl⟩ := handleSend_append s endpoint t r now outcome
    rw [htl]
    intro hemp
    exact hne (List.append_eq_nil.mp hemp).1
  | clear => simp [clearState]
  | toggleOpen => exact hne
  | typeInput v => exact hne

/-! ### Claim C8 -/

/-- C8: the Chatbot's message list is never empty — the initial state holds
exactly the welcome message, the load effect leaves the list unchanged when
nothing (or an empty history) is stored, clearing resets it to exactly the
welcome message, sending only appends, and consequently every reachable
state has a non-empty message list. -/
theorem C8_messages_invariant :
    (∀ st, (chatInit st).messages = [welcomeMessage]) ∧
    (∀ st cur, getVal STORAGE_KEY st = none →
      loadHistoryMessages st cur = cur) ∧
    (∀ st cur, getVal STORAGE_KEY st = some (Val.msgs []) →
      loadHistoryMessages st cur = cur) ∧
    (∀ s : ChatState, (clearState s).messages = [welcomeMessage]) ∧
    (∀ (s : ChatState) (endpoint t r : String) (now : Nat)
        (outcome : Option ChatResponse), ∃ tl,
      (handleSend s endpoint t r now outcome).state.messages =
        s.messages ++ tl) ∧
    (∀ s : ChatState, ChatReachable s → s.messages ≠ []) := by
  refine ⟨fun st => rfl, ?_, ?_, fun s => rfl, handleSend_append, ?_⟩
  · intro st cur h
    simp only [loadHistoryMessages, h]
  · intro st cur h
    simp [loadHistoryMessages, h, sliceLast]
  · intro s hr
    induction hr with
    | init st => simp [chatInit, welcomeMessage]
    | step hr hstep ih => exact chatStep_preserves hstep ih

/-- Witness for C8 at the initial state over empty storage. -/
theorem C8_witness : (chatInit []).messages ≠ [] :=
  C8_messages_invariant.2.2.2.2.2 (chatInit []) (ChatReachable.init [])

/-! ### Claim C9 -/

/-- C9: a mouseup whose trimmed selection is shorter than 3 UTF-16 units (in
particular an empty one) hides the Ask AI popup and clears the stored
selection; a trimmed selection of 3 or more units with a bounding rectangle
stores the trimmed text and shows the popup at the position computed from
the rectangle and scroll offsets. -/
theorem C9_selection_popup (winSel : Option String) (rect : Option Rect)
    (sx sy : Rat) (s : SelectState) :
    (∀ raw, winSel = some raw → utf16Len (jsTrim raw) < 3 →
      (handleTextSelection winSel rect sx sy s).selection = none ∧
      (handleTextSelection winSel rect sx sy s).showPopup = false) ∧
    (∀ raw r, winSel = some raw → 3 ≤ utf16Len (jsTrim raw) →
      rect = some r →
      (handleTextSelection winSel rect sx sy s).selection =
          some (jsTrim raw) ∧
      (handleTextSelection winSel rect sx sy s).showPopup = true ∧
      (handleTextSelection winSel rect sx sy s).popupTop = r.top + sy - 45 ∧
      (handleTextSelection winSel rect sx sy s).popupLeft =
        r.left + sx + r.width / 2) := by
  constructor
  · intro raw hw hlen
    subst hw
    simp only [handleTextSelection]
    rw [if_pos (Or.inr hlen)]
    exact ⟨rfl, rfl⟩
  · intro raw r hw h3 hr
    subst hw
    subst hr
    have hcond : ¬(jsTrim raw = "" ∨ utf16Len (jsTrim raw) < 3) := by
      rintro (he | hl)
      · rw [he] at h3
        exact absurd h3 (by decide)
      · omega
    simp only [handleTextSelection]
    rw [if_neg hcond]
    exact ⟨rfl, rfl, rfl, rfl⟩

/-- Witness for C9: a 2-unit selection hides the popup; the selection
`hello` with a rectangle is stored and shown. -/
theorem C9_witness :
    (handleTextSelection (some ("ab ")) none 0 0
        { selection := some ("old"), popupTop := 0, popupLeft := 0,
          showPopup := true, chatbotOpen := false }).showPopup = false ∧
    (handleTextSelection (some ("hello"))
        (some { top := 1, left := 2, width := 3 }) 4 5
        { selection := none, popupTop := 0, popupLeft := 0,
          showPopup := false, chatbotOpen := false }).selection =
      some (jsTrim ("hello")) := by
  constructor
  · exact ((C9_selection_popup (some ("ab ")) none 0 0
      { selection := some ("old"), popupTop := 0, popupLeft := 0,
        showPopup := true, chatbotOpen := false }).1 ("ab ") rfl
      (by decide)).2
  · exact ((C9_selection_popup (some ("hello"))
      (some { top := 1, left := 2, width := 3 }) 4 5
      { selection := none, popupTop := 0, popupLeft := 0,
        showPopup := false, chatbotOpen := false }).2 ("hello")
      { top := 1, left := 2, width := 3 } rfl (by decide) rfl).1

/-! ### Claim C10 -/

/-- C10: `getUserId` is stable — with no stored `user_id` it generates,
stores and returns the fresh identifier, and once any first call has run,
every later call returns the same identifier and leaves the storage exactly
as it was. -/
theorem C10_user_id_stable :
    (∀ t r st, getVal userIdKey st = none →
      getUserId t r st =
        (genUserId t r, setVal userIdKey (Val.str (genUserId t r)) st)) ∧
    (∀ t r t' r' st,
      getUserId t' r' (getUserId t r st).2 = getUserId t r st) := by
  constructor
  · intro t r st h
    simp only [getUserId, h]
  · intro t r t' r' st
    have hfresh : getUserId t' r'
        (setVal userIdKey (Val.str (genUserId t r)) st) =
        (genUserId t r, setVal userIdKey (Val.str (genUserId t r)) st) := by
      simp only [getUserId, getVal_setVal_self]
      rw [if_neg (genUserId_ne_empty t r)]
    cases hv : getVal userIdKey st with
    | none =>
      simp only [getUserId, hv]
      exact hfresh
    | some v =>
      cases v with
      | str uid =>
        by_cases hu : uid = ""
        · simp only [getUserId, hv, if_pos hu]
          exact hfresh
        · simp only [getUserId, hv, if_neg hu]
      | msgs l =>
        simp only [getUserId, hv]
        exact hfresh
      | prefs p =>
        simp only [getUserId, hv]
        exact hfresh

/-- Witness for C10: the first call over empty storage stores and returns
the generated identifier. -/
theorem C10_witness :
    getUserId ("5") ("abc") [] =
      ("user_5_abc", [(userIdKey, Val.str ("user_5_abc"))]) := by
  rw [C10_user_id_stable.1 ("5") ("abc") [] rfl]
  rfl
